import Mathlib

/-!
Verification of the credential and token lifecycle engine of the
Documents-Exp-API repository: a shallow embedding of
src/services/auth_service.py, src/repositories/auth_repository.py,
src/utils/security_util.py and src/utils/auth_util.py over an explicit
relational-store state, with theorems about login, signup, refresh
rotation, verification codes and password reset.

Modelling conventions:
* `datetime.utcnow()` is an explicit `now : Nat` parameter (minutes).
* Signed tokens, reset-token plaintexts and bcrypt salts are unguessable
  unique values; they are modelled as `Nat` drawn from an explicit fresh
  supply or passed in as explicit random draws.
* Raising `HTTPException` aborts the request but does not roll back writes
  already committed, so every operation returns the state it leaves behind
  together with either its response or the error.
-/

namespace DocsExp

/-- Salted digest produced by the password hasher.  Modelled from the spec:
the hashing primitive (passlib bcrypt behind `pwd_context` in
src/utils/security_util.py) is an external collaborator, treated as an
abstract capability hash(secret) to digest / verify(secret, digest) to bool
with a tunable salted cost factor. -/
structure Digest where
  salt : Nat
  body : String
deriving DecidableEq

/-- src/utils/security_util.py `hash_password`: salted hash of the password;
the salt is the random input consumed by the primitive. -/
def hash_password (salt : Nat) (password : String) : Digest :=
  ⟨salt, password⟩

/-- src/utils/security_util.py `verify_password`: checks a plaintext against a
stored digest.  A user row reserved during signup stores the empty string as
its hash; that sentinel is modelled as `none` (passlib rejects such a value;
no verified claim exercises that branch). -/
def verify_password (plain : String) (hashed : Option Digest) : Bool :=
  match hashed with
  | none => false
  | some d => plain == d.body

/-- Value drawn by src/utils/security_util.py `generate_verification_code`:
Python `randint(100000, 999999)` is inclusive on both ends, so with the
random draw `r` made explicit the drawn value is `100000 + r % 900000`. -/
def verification_code_value (r : Nat) : Nat :=
  100000 + r % 900000

/-- src/utils/security_util.py `generate_verification_code`: returns the code
as text (`str(code)`, decimal, no padding) together with its bcrypt hash. -/
def generate_verification_code (r salt : Nat) : String × Digest :=
  (Nat.repr (verification_code_value r), ⟨salt, Nat.repr (verification_code_value r)⟩)

/-- SHA-256 digest of a reset token as stored by the repository
(src/utils/security_util.py `hash_token`).  The plaintext produced by
`create_reset_token` (`secrets.token_urlsafe`) is modelled as a `Nat`; the
digest is kept in a separate type because the store never holds plaintext. -/
structure TokenDigest where
  val : Nat
deriving DecidableEq

/-- src/utils/security_util.py `hash_token` (injective, collision-free as the
spec assumes of SHA-256). -/
def hash_token (token : Nat) : TokenDigest :=
  ⟨token⟩

/-- src/models/user_model.py `User`.  The `is_active` flag is modelled from
the spec: src/services/auth_service.py reads `user.is_active` and the spec
lists the flag in the data model, but the declarative base (db/base.py) that
would carry the column is not under src. -/
structure User where
  id : Nat
  email : String
  username : Option String
  department : Option String
  is_admin : Bool
  is_active : Bool
  password_hash : Option Digest
deriving DecidableEq

/-- src/models/refresh_tokens_model.py `RefreshToken`.  `expires_at` is an
`Option` because `AuthService.signup` constructs the record without it, and
the SQL comparison `expires_at > now` is not satisfied by NULL. -/
structure RefreshTokenRec where
  token : Nat
  user_id : Nat
  expires_at : Option Nat
  used : Bool
deriving DecidableEq

/-- Verification code record with the fields the service and repository
actually read and write (email, code hash, expiry, used flag) — spec data
model for VerificationCode. -/
structure VerificationCodeRec where
  email : String
  code_hash : Digest
  expires_at : Nat
  used : Bool
deriving DecidableEq

/-- src/models/reset_tokens_model.py `ResetToken`: holds only the SHA-256
digest of the token, never the plaintext. -/
structure ResetTokenRec where
  user_id : Nat
  token : TokenDigest
  expires_at : Nat
  used : Bool
deriving DecidableEq

/-- The relational store, plus the supply of fresh unguessable values used
for signed tokens and new surrogate ids. -/
structure AuthState where
  users : List User
  refresh_tokens : List RefreshTokenRec
  verification_codes : List VerificationCodeRec
  reset_tokens : List ResetTokenRec
  fresh : Nat
deriving DecidableEq

/-- src/core/config.py `Settings` — the env-driven values the verified flows
read. -/
structure Settings where
  REFRESH_TOKEN_EXPIRE_MINUTES : Nat
  EMAIL_VERIFICATION_CODE_EXPIRE_MINUTES : Nat
  RESET_TOKEN_EXPIRE_MINUTES : Nat
deriving DecidableEq

/-- src/repositories/auth_repository.py `get_user_by_id`
(`SELECT ... WHERE User.id == user_id`, first row or none). -/
def get_user_by_id (st : AuthState) (user_id : Int) : Option User :=
  st.users.find? (fun u => ((u.id : Int)) == user_id)

/-- src/repositories/auth_repository.py `get_user_by_email`. -/
def get_user_by_email (st : AuthState) (email : String) : Option User :=
  st.users.find? (fun u => u.email == email)

/-- The SQL predicate `RefreshToken.expires_at > utcnow()` with NULL
semantics: a missing expiry never compares greater. -/
def refresh_not_expired (now : Nat) (t : RefreshTokenRec) : Bool :=
  match t.expires_at with
  | some e => now < e
  | none => false

/-- src/repositories/auth_repository.py `get_reset_token`: digest match,
unexpired, unused. -/
def get_reset_token (st : AuthState) (token : TokenDigest) (now : Nat) :
    Option ResetTokenRec :=
  st.reset_tokens.find? (fun t => t.token == token && decide (now < t.expires_at) && !t.used)

/-- src/repositories/auth_repository.py `get_active_token`: token match,
unused, expiry strictly in the future. -/
def get_active_token (st : AuthState) (token : Nat) (now : Nat) :
    Option RefreshTokenRec :=
  st.refresh_tokens.find? (fun t => t.token == token && !t.used && refresh_not_expired now t)

/-- src/repositories/auth_repository.py `save_reset_token` (INSERT). -/
def save_reset_token (st : AuthState) (t : ResetTokenRec) : AuthState :=
  { st with reset_tokens := st.reset_tokens ++ [t] }

/-- src/repositories/auth_repository.py `save_refresh_token` (INSERT). -/
def save_refresh_token (st : AuthState) (t : RefreshTokenRec) : AuthState :=
  { st with refresh_tokens := st.refresh_tokens ++ [t] }

/-- Row-level effect of `invalidate_reset_token`: the ORM sets `used = True`
on the fetched row, identified by its unique token digest. -/
def mark_reset_used_if_token (token : TokenDigest) (x : ResetTokenRec) : ResetTokenRec :=
  if x.token == token then { x with used := true } else x

/-- src/repositories/auth_repository.py `invalidate_reset_token`. -/
def invalidate_reset_token (st : AuthState) (t : ResetTokenRec) : AuthState :=
  { st with reset_tokens := st.reset_tokens.map (mark_reset_used_if_token t.token) }

/-- Row-level effect of `invalidate_refresh_token`: sets `used = True` on the
fetched row, identified by its unique token value. -/
def mark_refresh_used_if_token (token : Nat) (x : RefreshTokenRec) : RefreshTokenRec :=
  if x.token == token then { x with used := true } else x

/-- src/repositories/auth_repository.py `invalidate_refresh_token`. -/
def invalidate_refresh_token (st : AuthState) (t : RefreshTokenRec) : AuthState :=
  { st with refresh_tokens := st.refresh_tokens.map (mark_refresh_used_if_token t.token) }

/-- Row-level effect of `invalidate_all_user_refresh_tokens`
(`UPDATE ... WHERE user_id = ? AND used = false`). -/
def mark_refresh_used_if_user (user_id : Nat) (x : RefreshTokenRec) : RefreshTokenRec :=
  if x.user_id == user_id && !x.used then { x with used := true } else x

/-- src/repositories/auth_repository.py `invalidate_all_user_refresh_tokens`. -/
def invalidate_all_user_refresh_tokens (st : AuthState) (user_id : Nat) : AuthState :=
  { st with refresh_tokens := st.refresh_tokens.map (mark_refresh_used_if_user user_id) }

/-- src/repositories/auth_repository.py `get_verification_code_by_email`:
email match, unused, unexpired. -/
def get_verification_code_by_email (st : AuthState) (email : String) (now : Nat) :
    Option VerificationCodeRec :=
  st.verification_codes.find? (fun c => c.email == email && !c.used && decide (now < c.expires_at))

/-- src/repositories/auth_repository.py `save_verification_code` (INSERT). -/
def save_verification_code (st : AuthState) (c : VerificationCodeRec) : AuthState :=
  { st with verification_codes := st.verification_codes ++ [c] }

/-- Row-level effect of `invalidate_all_verifications_codes_by_email`
(`UPDATE ... WHERE email = ? AND used = false`). -/
def mark_code_used_if_email (email : String) (x : VerificationCodeRec) : VerificationCodeRec :=
  if x.email == email && !x.used then { x with used := true } else x

/-- src/repositories/auth_repository.py `invalidate_all_verifications_codes_by_email`. -/
def invalidate_all_verifications_codes_by_email (st : AuthState) (email : String) : AuthState :=
  { st with verification_codes := st.verification_codes.map (mark_code_used_if_email email) }

/-- Modelled from the spec: `AuthService` calls `repo.update_user`, which is
not defined in src/repositories/auth_repository.py; the spec store contract
has `saveUser(user)` as insert-or-update, so the row with the same id is
replaced. -/
def update_user (st : AuthState) (u : User) : AuthState :=
  { st with users := st.users.map (fun x => if x.id == u.id then u else x) }

/-- Modelled from the spec: `repo.create_user` is likewise absent from the
repository under src; the store contract insert. -/
def create_user (st : AuthState) (u : User) : AuthState :=
  { st with users := st.users ++ [u] }

/-- The `user` part of `UserTokenResponse` (src/schemas, via
`_create_token_response`). -/
structure UserOut where
  id : Nat
  email : String
  username : Option String
  department : Option String
deriving DecidableEq

/-- `UserTokenResponse` as built by `AuthService._create_token_response`. -/
structure UserTokenResponse where
  access_token : Nat
  refresh_token : Nat
  token_type : String
  user : UserOut
deriving DecidableEq

/-- Modelled from the spec: `_create_tokens` calls `create_access_token`,
which is not under src (src/utils/auth_util.py defines only `create_token`);
the Token Signer issue step is modelled as producing fresh unique values per
the spec (unguessable and unique).  Returns (access, refresh). -/
def create_tokens (fresh : Nat) : Nat × Nat :=
  (fresh, fresh + 1)

/-- `AuthService._create_token_response`. -/
def create_token_response (tokens : Nat × Nat) (u : User) : UserTokenResponse :=
  ⟨tokens.1, tokens.2, "bearer", ⟨u.id, u.email, u.username, u.department⟩⟩

/-- The `HTTPException` raised by `AuthService._check_http_error`. -/
structure HTTPError where
  status : Nat
  detail : String
deriving DecidableEq

/-- `AuthService.login` (src/services/auth_service.py lines 24-82).  All
three credential checks precede every write, so each failure returns the
state unchanged with the one generic error. -/
def login (cfg : Settings) (st : AuthState) (now : Nat) (email password : String) :
    AuthState × Except HTTPError UserTokenResponse :=
  match get_user_by_email st email with
  | none => (st, .error ⟨400, "Email or password is incorrect"⟩)
  | some user =>
    if !user.is_active then (st, .error ⟨400, "Email or password is incorrect"⟩)
    else if !(verify_password password user.password_hash) then
      (st, .error ⟨400, "Email or password is incorrect"⟩)
    else
      let tokens := create_tokens st.fresh
      let st1 : AuthState := { st with fresh := st.fresh + 2 }
      let st2 := invalidate_all_user_refresh_tokens st1 user.id
      let st3 := save_refresh_token st2
        ⟨tokens.2, user.id, some (now + cfg.REFRESH_TOKEN_EXPIRE_MINUTES), false⟩
      (st3, .ok (create_token_response tokens user))

/-- `AuthService.signup` (lines 88-145).  The saved refresh token record
omits `expires_at` in the source, and the source dereferences the user
lookup without a None check (an AttributeError, modelled as a 500). -/
def signup (cfg : Settings) (st : AuthState) (now salt : Nat)
    (email code password : String) : AuthState × Except HTTPError UserTokenResponse :=
  match get_verification_code_by_email st email now with
  | none => (st, .error ⟨400, "Verification code is incorrect or has expired"⟩)
  | some vc =>
    if !(verify_password code (some vc.code_hash)) then
      (st, .error ⟨400, "Verification code is incorrect or has expired"⟩)
    else
      match get_user_by_email st email with
      | none => (st, .error ⟨500, "AttributeError"⟩)
      | some user =>
        let user1 : User := { user with password_hash := some (hash_password salt password) }
        let st1 := update_user st user1
        let tokens := create_tokens st1.fresh
        let st2 : AuthState := { st1 with fresh := st1.fresh + 2 }
        let st3 := save_refresh_token st2 ⟨tokens.2, user1.id, none, false⟩
        let st4 := invalidate_all_verifications_codes_by_email st3 email
        (st4, .ok (create_token_response tokens user1))

/-- `AuthService.signup_send_code` (lines 148-198).  Any existing user row
for the email — active or merely reserved — trips the duplicate check; on
success a fresh reserved row (empty digest, not yet activated) is inserted,
never reused.  `r` is the random draw for the code, `salt` the hash salt;
the new row id comes from the fresh supply. -/
def signup_send_code (cfg : Settings) (st : AuthState) (now r salt : Nat)
    (email : String) : AuthState × Except HTTPError String :=
  match get_user_by_email st email with
  | some _ => (st, .error ⟨400, "User with this email already exists"⟩)
  | none =>
    let c := generate_verification_code r salt
    let st1 := invalidate_all_verifications_codes_by_email st email
    let st2 := save_verification_code st1
      ⟨email, c.2, now + cfg.EMAIL_VERIFICATION_CODE_EXPIRE_MINUTES, false⟩
    let newUser : User := ⟨st2.fresh, email, none, none, false, false, none⟩
    let st3 := create_user { st2 with fresh := st2.fresh + 1 } newUser
    (st3, .ok ("Verification code sent. CODE: " ++ c.1))

/-- `AuthService.request_password_reset` (lines 204-242).  The source saves
the new code first and only afterwards runs the bulk invalidation for the
email, so the UPDATE also hits the row just inserted. -/
def request_password_reset (cfg : Settings) (st : AuthState) (now r salt : Nat)
    (email : String) : AuthState × Except HTTPError String :=
  match get_user_by_email st email with
  | none =>
    (st, .ok "If an account with this email exists, a verification code has been sent.")
  | some _ =>
    let c := generate_verification_code r salt
    let st1 := save_verification_code st
      ⟨email, c.2, now + cfg.EMAIL_VERIFICATION_CODE_EXPIRE_MINUTES, false⟩
    let st2 := invalidate_all_verifications_codes_by_email st1 email
    (st2, .ok "If an account with this email exists, a verification code has been sent.")

/-- `AuthService.verify_reset_code` (lines 245-305).  `rt` is the random
plaintext produced by `create_reset_token`, returned once to the caller;
only its SHA-256 digest is stored. -/
def verify_reset_code (cfg : Settings) (st : AuthState) (now rt : Nat)
    (email code : String) : AuthState × Except HTTPError Nat :=
  match get_user_by_email st email with
  | none => (st, .error ⟨400, "Verification code is incorrect or has expired"⟩)
  | some user =>
    match get_verification_code_by_email st email now with
    | none => (st, .error ⟨400, "Verification code is incorrect or has expired"⟩)
    | some vc =>
      if !(verify_password code (some vc.code_hash)) then
        (st, .error ⟨400, "Verification code is incorrect or has expired"⟩)
      else
        let st1 := save_reset_token st
          ⟨user.id, hash_token rt, now + cfg.RESET_TOKEN_EXPIRE_MINUTES, false⟩
        let st2 := invalidate_all_verifications_codes_by_email st1 email
        (st2, .ok rt)

/-- `AuthService.reset_password` (lines 308-347). -/
def reset_password (st : AuthState) (now salt : Nat) (reset_tok : Nat)
    (password : String) : AuthState × Except HTTPError String :=
  match get_reset_token st (hash_token reset_tok) now with
  | none => (st, .error ⟨400, "Reset token is invalid or expired."⟩)
  | some tok =>
    match get_user_by_id st (tok.user_id : Int) with
    | none => (st, .error ⟨400, "Reset token is invalid or expired."⟩)
    | some user =>
      let user1 : User := { user with password_hash := some (hash_password salt password) }
      let st1 := update_user st user1
      let st2 := invalidate_reset_token st1 tok
      (st2, .ok "Password changed")

/-- `AuthService.refresh_token` (lines 353-405).  The service calls
`repo.invalidate`; the repository defines `invalidate_refresh_token`
(mark `used = True`), which the spec rotation protocol identifies as the
callee.  When the later user lookup fails, the already-committed
invalidation stays in place, so the error branch returns the updated
state. -/
def refresh_token (cfg : Settings) (st : AuthState) (now : Nat)
    (provided_token : Nat) : AuthState × Except HTTPError UserTokenResponse :=
  match get_active_token st provided_token now with
  | none => (st, .error ⟨401, "Refresh token is invalid or has expired"⟩)
  | some tok =>
    let st1 := invalidate_refresh_token st tok
    match get_user_by_id st1 (tok.user_id : Int) with
    | none => (st1, .error ⟨401, "User associated with the token not found"⟩)
    | some user =>
      let tokens := create_tokens st1.fresh
      let st2 : AuthState := { st1 with fresh := st1.fresh + 2 }
      let st3 := save_refresh_token st2
        ⟨tokens.2, user.id, some (now + cfg.REFRESH_TOKEN_EXPIRE_MINUTES), false⟩
      (st3, .ok (create_token_response tokens user))

/-- Inbound bearer token as seen by `jwt.decode`.  Modelled from the spec:
the signed-token codec (python-jose) is an external collaborator; `invalid`
covers every signature, format and expiry failure (the JWTError cases),
`payload` is a successfully decoded claims set with its `sub` claim, which
may be absent. -/
inductive BearerInput where
  | invalid : BearerInput
  | payload (sub : Option String) : BearerInput
deriving DecidableEq

/-- Python exceptions that can escape `int(payload.get("sub"))`. -/
inductive PyExc where
  | typeError : PyExc
  | valueError : PyExc
deriving DecidableEq

/-- A decimal digit of Python `int(...)` parsing. -/
def digit_value (c : Char) : Option Nat :=
  if c.isDigit then some (c.toNat - 48) else none

/-- Accumulate the decimal digits of Python `int(...)` parsing; fails on the
first non-digit character. -/
def digits_value (cs : List Char) (acc : Nat) : Option Nat :=
  match cs with
  | [] => some acc
  | c :: rest =>
    match digit_value c with
    | none => none
    | some d => digits_value rest (acc * 10 + d)

/-- Python `int(s)` on a string: an optional sign followed by at least one
decimal digit (surrounding whitespace and underscores, which `int` also
tolerates, never occur in a `sub` claim and are not modelled). -/
def py_int_parse (s : String) : Option Int :=
  match s.data with
  | [] => none
  | '-' :: rest =>
    match rest with
    | [] => none
    | _ => (digits_value rest 0).map (fun n => -(n : Int))
  | cs => (digits_value cs 0).map (fun n => (n : Int))

/-- Python `int(payload.get("sub"))`: `int(None)` raises TypeError and a
non-numeric string raises ValueError; neither is a JWTError. -/
def py_int_of_sub (sub : Option String) : Except PyExc Int :=
  match sub with
  | none => .error .typeError
  | some s =>
    match py_int_parse s with
    | none => .error .valueError
    | some n => .ok n

/-- Outcome of the Session Boundary Guard. -/
inductive GuardOutcome where
  | ok (u : User) : GuardOutcome
  | unauthenticated : GuardOutcome
  | uncaught (e : PyExc) : GuardOutcome
deriving DecidableEq

/-- `get_current_user` (src/utils/auth_util.py lines 26-68): decode failures
are caught by `except JWTError` and mapped to the 401 credentials exception;
the `if user_id is None` check is dead because `int(...)` never returns
None; an unresolved subject is again the credentials exception; but the
TypeError / ValueError raised by `int(...)` on a missing or non-numeric
`sub` claim escapes uncaught.  The guard is read-only, so no state is
returned. -/
def get_current_user (st : AuthState) (token : BearerInput) : GuardOutcome :=
  match token with
  | .invalid => .unauthenticated
  | .payload sub =>
    match py_int_of_sub sub with
    | .error e => .uncaught e
    | .ok user_id =>
      match get_user_by_id st user_id with
      | none => .unauthenticated
      | some u => .ok u

/-! ### Shared concrete fixtures for witnesses -/

/-- Concrete settings used by witnesses. -/
def cfgW : Settings := ⟨60, 15, 30⟩

/-- A fully activated user. -/
def uW : User := ⟨1, "a@x.com", none, none, false, true, some ⟨0, "pw"⟩⟩

/-- An unused refresh token of `uW`, expiring at minute 100. -/
def recW : RefreshTokenRec := ⟨3, 1, some 100, false⟩

/-- Store with one active user and one live refresh token. -/
def stW : AuthState := ⟨[uW], [recW], [], [], 4⟩

/-- Store with one active user and one live verification code for them. -/
def stVW : AuthState := ⟨[uW], [], [⟨"a@x.com", ⟨1, "123456"⟩, 100, false⟩], [], 4⟩

/-- The empty store. -/
def stE : AuthState := ⟨[], [], [], [], 0⟩

/-! ### Helper lemmas about list search -/

theorem find_none_of_all_false {α : Type} (p : α → Bool) (l : List α)
    (h : ∀ x ∈ l, p x = false) : l.find? p = none := by
  induction l with
  | nil => rfl
  | cons a t ih =>
    have ha : p a = false := h a (by simp)
    simp only [List.find?_cons, ha]
    exact ih (fun x hx => h x (by simp [hx]))

theorem find_append_of_left_false {α : Type} (p : α → Bool) (l1 l2 : List α)
    (h : ∀ x ∈ l1, p x = false) : (l1 ++ l2).find? p = l2.find? p := by
  induction l1 with
  | nil => rfl
  | cons a t ih =>
    have ha : p a = false := h a (by simp)
    simp only [List.cons_append, List.find?_cons, ha]
    exact ih (fun x hx => h x (by simp [hx]))

theorem find_unique_key {α : Type} (p : α → Bool) (key : α → Nat) (l : List α)
    (hpw : l.Pairwise (fun a b => key a ≠ key b)) (rec : α) (hmem : rec ∈ l)
    (hp : p rec = true) (hkey : ∀ x, p x = true → key x = key rec) :
    l.find? p = some rec := by
  induction l with
  | nil => cases hmem
  | cons a t ih =>
    rcases List.mem_cons.mp hmem with h1 | h1
    · subst h1
      simp [List.find?_cons, hp]
    · have hpa : p a = false := by
        cases hcand : p a with
        | false => rfl
        | true =>
          have hk := hkey a hcand
          have hne := (List.pairwise_cons.mp hpw).1 rec h1
          exact absurd hk hne
      simp only [List.find?_cons, hpa]
      exact ih (List.pairwise_cons.mp hpw).2 h1

/-! ### C9: hasher round trip -/

/-- C9: for every plaintext p, verify(p, hash(p)) returns true, and for every
plaintext q distinct from p, verify(q, hash(p)) returns false, including
plaintexts of edge lengths (settled against the spec-modelled hashing
primitive, which is an external collaborator not under src). -/
theorem hash_verify_round_trip (salt : Nat) (p q : String) (hne : q ≠ p) :
    verify_password p (some (hash_password salt p)) = true ∧
      verify_password q (some (hash_password salt p)) = false := by
  refine ⟨by simp [verify_password, hash_password], ?_⟩
  simp [verify_password, hash_password, hne]

theorem hash_verify_round_trip_witness :
    ("" : String) ≠ "pw" ∧
      (verify_password "pw" (some (hash_password 0 "pw")) = true ∧
        verify_password "" (some (hash_password 0 "pw")) = false) :=
  ⟨by decide, hash_verify_round_trip 0 "pw" "" (by decide)⟩

/-! ### C8: verification code generator -/

/-- C8 counterexample: no random draw ever yields a value below 100000 (the
values whose 6-character decimal form would need a leading zero), and the
draw that a uniform choice over all 6-digit strings would map to "012345"
actually produces "112345"; Python `randint(100000, 999999)` together with
unpadded `str(...)` can never produce a code with a leading zero, refuting
the claim that such codes are among the possible outputs. -/
theorem verification_code_no_leading_zero :
    (¬ ∃ r : Nat, verification_code_value r < 100000) ∧
      (generate_verification_code 12345 0).1 = "112345" := by
  constructor
  · rintro ⟨r, hr⟩
    have h : 100000 ≤ verification_code_value r := Nat.le_add_right 100000 (r % 900000)
    omega
  · rfl

/-- C8 (amended): every code produced by the generator is the unpadded
decimal string of a value drawn uniformly from 100000..999999 inclusive —
exactly the 6-digit strings without a leading zero; the possible values are
precisely that interval. -/
theorem verification_code_value_range (v : Nat) :
    (∃ r : Nat, verification_code_value r = v) ↔ (100000 ≤ v ∧ v ≤ 999999) := by
  constructor
  · rintro ⟨r, rfl⟩
    unfold verification_code_value
    have h : r % 900000 < 900000 := Nat.mod_lt _ (by omega)
    omega
  · rintro ⟨h1, h2⟩
    refine ⟨v - 100000, ?_⟩
    unfold verification_code_value
    have h : (v - 100000) % 900000 = v - 100000 := Nat.mod_eq_of_lt (by omega)
    omega

/-! ### C7: session boundary guard -/

/-- C7: the guard does NOT always answer with a user or Unauthenticated — a
validly signed, unexpired token whose `sub` claim is missing makes
`int(payload.get("sub"))` raise TypeError, and a non-numeric `sub` raises
ValueError; neither is a JWTError, so both escape the guard uncaught as a
different (internal) error, while actual decode failures do map to the
single Unauthenticated response. -/
theorem guard_uncaught_on_missing_sub :
    get_current_user stE (.payload none) = .uncaught .typeError ∧
      get_current_user stE (.payload (some "abc")) = .uncaught .valueError ∧
      get_current_user stE .invalid = .unauthenticated :=
  ⟨rfl, by decide, rfl⟩

/-! ### C3: login failures are a single generic error -/

/-- C3: whichever of the three reasons applies — unknown email, inactive
account, or wrong password — login returns exactly the same error (status
400, detail "Email or password is incorrect") and leaves the store
untouched, so nothing observable distinguishes the three cases. -/
theorem login_generic_invalid_credentials (cfg : Settings) (st : AuthState)
    (now : Nat) (email password : String)
    (h : get_user_by_email st email = none ∨
          (∃ u, get_user_by_email st email = some u ∧ u.is_active = false) ∨
          (∃ u, get_user_by_email st email = some u ∧ u.is_active = true ∧
            verify_password password u.password_hash = false)) :
    login cfg st now email password = (st, .error ⟨400, "Email or password is incorrect"⟩) := by
  rcases h with h | ⟨u, hu, hact⟩ | ⟨u, hu, hact, hpw⟩
  · simp [login, h]
  · simp [login, hu, hact]
  · simp [login, hu, hact, hpw]

theorem login_generic_invalid_credentials_witness :
    (get_user_by_email stE "a@x.com" = none ∨
      (∃ u, get_user_by_email stE "a@x.com" = some u ∧ u.is_active = false) ∨
      (∃ u, get_user_by_email stE "a@x.com" = some u ∧ u.is_active = true ∧
        verify_password "pw" u.password_hash = false)) ∧
    login cfgW stE 0 "a@x.com" "pw" = (stE, .error ⟨400, "Email or password is incorrect"⟩) :=
  ⟨Or.inl rfl, login_generic_invalid_credentials cfgW stE 0 "a@x.com" "pw" (Or.inl rfl)⟩

/-! ### C6: signup-send-code duplicate check -/

/-- A reserved user row: empty password digest, not activated. -/
def reservedW : User := ⟨1, "a@x.com", none, none, false, false, none⟩

/-- Store holding only the reserved row. -/
def stRW : AuthState := ⟨[reservedW], [], [], [], 2⟩

/-- C6 counterexample: with only a reserved row for the email in the store
(empty digest, not active), signup-send-code does not succeed and reuse the
row — it fails with the AlreadyExists error, because the duplicate check
fires on any user row regardless of `is_active`. -/
theorem signup_send_code_blocks_reserved_email :
    signup_send_code cfgW stRW 0 0 0 "a@x.com" =
      (stRW, .error ⟨400, "User with this email already exists"⟩) ∧
      stRW.users = [reservedW] ∧
      reservedW.is_active = false ∧ reservedW.password_hash = none :=
  ⟨rfl, rfl, rfl, rfl⟩

/-- C6 (amended): signup-send-code signals AlreadyExists if and only if ANY
user row with the email exists, active or merely reserved; only when no row
exists at all does it succeed, and then it appends a brand-new reserved row
(empty digest, inactive) rather than reusing anything. -/
theorem signup_send_code_duplicate_check (cfg : Settings) (st : AuthState)
    (now r salt : Nat) (email : String) :
    signup_send_code cfg st now r salt email =
      if st.users.any (fun u => u.email == email) then
        (st, .error ⟨400, "User with this email already exists"⟩)
      else
        ({ users := st.users ++ [⟨st.fresh, email, none, none, false, false, none⟩],
           refresh_tokens := st.refresh_tokens,
           verification_codes :=
             st.verification_codes.map (mark_code_used_if_email email) ++
               [⟨email, (generate_verification_code r salt).2,
                 now + cfg.EMAIL_VERIFICATION_CODE_EXPIRE_MINUTES, false⟩],
           reset_tokens := st.reset_tokens,
           fresh := st.fresh + 1 },
         .ok ("Verification code sent. CODE: " ++ (generate_verification_code r salt).1)) := by
  cases hfind : st.users.find? (fun u => u.email == email) with
  | none =>
    have hany : st.users.any (fun u => u.email == email) = false := by
      rw [List.any_eq_false]
      intro x hx
      simpa using List.find?_eq_none.mp hfind x hx
    simp [signup_send_code, get_user_by_email, hfind, hany,
      invalidate_all_verifications_codes_by_email, save_verification_code, create_user]
  | some u =>
    have hany : st.users.any (fun u => u.email == email) = true := by
      rw [List.any_eq_true]
      have hpu : (u.email == email) = true := by
        have h := List.find?_some hfind
        simpa using h
      exact ⟨u, List.mem_of_find?_eq_some hfind, hpu⟩
    simp [signup_send_code, get_user_by_email, hfind, hany]

/-! ### C4: request-password-reset invalidates the code it just issued -/

/-- C4 (code bug): for an email with a matching active user,
request-password-reset saves the fresh verification code FIRST and only then
bulk-invalidates every unused code for the email, so the new code itself is
stored with used = true and the unused-code lookup finds nothing for that
email at any time afterwards — the opposite of issuing a retrievable code as
signup-send-code does. -/
theorem request_password_reset_kills_new_code (cfg : Settings) (st : AuthState)
    (now r salt : Nat) (email : String) (u : User)
    (hu : get_user_by_email st email = some u) (hactive : u.is_active = true) :
    ∃ st1,
      request_password_reset cfg st now r salt email =
        (st1, .ok "If an account with this email exists, a verification code has been sent.") ∧
      (⟨email, (generate_verification_code r salt).2,
          now + cfg.EMAIL_VERIFICATION_CODE_EXPIRE_MINUTES, true⟩ : VerificationCodeRec) ∈
        st1.verification_codes ∧
      (∀ now2, get_verification_code_by_email st1 email now2 = none) := by
  refine ⟨{ st with verification_codes :=
      st.verification_codes.map (mark_code_used_if_email email) ++
        [⟨email, (generate_verification_code r salt).2,
          now + cfg.EMAIL_VERIFICATION_CODE_EXPIRE_MINUTES, true⟩] }, ?_, ?_, ?_⟩
  · simp [request_password_reset, hu, save_verification_code,
      invalidate_all_verifications_codes_by_email, mark_code_used_if_email]
  · simp
  · intro now2
    apply find_none_of_all_false
    intro x hx
    rcases List.mem_append.mp hx with hx1 | hx1
    · rcases List.mem_map.mp hx1 with ⟨y, hy, rfl⟩
      cases h1 : y.email == email <;> cases h2 : y.used <;>
        simp [mark_code_used_if_email, h1, h2]
    · rcases List.mem_singleton.mp hx1 with rfl
      simp

theorem request_password_reset_kills_new_code_witness :
    get_user_by_email stW "a@x.com" = some uW ∧ uW.is_active = true ∧
      (∃ st1,
        request_password_reset cfgW stW 50 0 7 "a@x.com" =
          (st1, .ok "If an account with this email exists, a verification code has been sent.") ∧
        (⟨"a@x.com", (generate_verification_code 0 7).2,
            50 + cfgW.EMAIL_VERIFICATION_CODE_EXPIRE_MINUTES, true⟩ : VerificationCodeRec) ∈
          st1.verification_codes ∧
        (∀ now2, get_verification_code_by_email st1 "a@x.com" now2 = none)) :=
  ⟨rfl, rfl, request_password_reset_kills_new_code cfgW stW 50 0 7 "a@x.com" uW rfl rfl⟩

/-! ### C2: login leaves exactly one unused refresh token -/

/-- C2: for a matching active user with the correct password, login marks
used = true on every previously-unused refresh token of that user (the bulk
invalidation runs before the insert) and then persists exactly one new
refresh token, so immediately afterwards the store holds exactly one unused
refresh token for that user. -/
theorem login_single_unused_refresh_token (cfg : Settings) (st : AuthState)
    (now : Nat) (email password : String) (u : User)
    (hu : get_user_by_email st email = some u)
    (hactive : u.is_active = true)
    (hpw : verify_password password u.password_hash = true) :
    ∃ st1,
      login cfg st now email password =
        (st1, .ok (create_token_response (create_tokens st.fresh) u)) ∧
      st1.refresh_tokens =
        st.refresh_tokens.map (mark_refresh_used_if_user u.id) ++
          [⟨st.fresh + 1, u.id, some (now + cfg.REFRESH_TOKEN_EXPIRE_MINUTES), false⟩] ∧
      st1.users = st.users ∧
      st1.refresh_tokens.countP (fun t => t.user_id == u.id && !t.used) = 1 := by
  refine ⟨{ st with
      refresh_tokens :=
        st.refresh_tokens.map (mark_refresh_used_if_user u.id) ++
          [⟨st.fresh + 1, u.id, some (now + cfg.REFRESH_TOKEN_EXPIRE_MINUTES), false⟩],
      fresh := st.fresh + 2 }, ?_, rfl, rfl, ?_⟩
  · simp [login, hu, hactive, hpw, invalidate_all_user_refresh_tokens,
      save_refresh_token, create_tokens]
  · rw [List.countP_append]
    have h0 : (st.refresh_tokens.map (mark_refresh_used_if_user u.id)).countP
        (fun t => t.user_id == u.id && !t.used) = 0 := by
      rw [List.countP_eq_zero]
      intro x hx
      rcases List.mem_map.mp hx with ⟨y, hy, rfl⟩
      cases h1 : y.user_id == u.id <;> cases h2 : y.used <;>
        simp [mark_refresh_used_if_user, h1, h2]
    rw [h0]
    simp [List.countP_cons]

theorem login_single_unused_refresh_token_witness :
    get_user_by_email stW "a@x.com" = some uW ∧ uW.is_active = true ∧
      verify_password "pw" uW.password_hash = true ∧
      (∃ st1,
        login cfgW stW 50 "a@x.com" "pw" =
          (st1, .ok (create_token_response (create_tokens stW.fresh) uW)) ∧
        st1.refresh_tokens =
          stW.refresh_tokens.map (mark_refresh_used_if_user uW.id) ++
            [⟨stW.fresh + 1, uW.id, some (50 + cfgW.REFRESH_TOKEN_EXPIRE_MINUTES), false⟩] ∧
        st1.users = stW.users ∧
        st1.refresh_tokens.countP (fun t => t.user_id == uW.id && !t.used) = 1) :=
  ⟨rfl, rfl, rfl,
    login_single_unused_refresh_token cfgW stW 50 "a@x.com" "pw" uW rfl rfl rfl⟩

/-! ### C1: refresh rotation is single-use -/

/-- C1: presenting a stored, unused, unexpired refresh token to refresh
succeeds the first time — marking the found token used = true, persisting a
brand-new refresh token for the same user and issuing a new access token —
and presenting the same value again immediately afterwards fails with the
InvalidOrExpired error, whatever the time of the second call. -/
theorem refresh_rotation_single_use (cfg : Settings) (st : AuthState)
    (now1 now2 : Nat) (rec : RefreshTokenRec) (u : User) (e : Nat)
    (hmem : rec ∈ st.refresh_tokens)
    (hused : rec.used = false)
    (hexp : rec.expires_at = some e)
    (hnow : now1 < e)
    (hdistinct : st.refresh_tokens.Pairwise (fun a b => a.token ≠ b.token))
    (hwf : ∀ x ∈ st.refresh_tokens, x.token < st.fresh)
    (huser : get_user_by_id st (rec.user_id : Int) = some u) :
    ∃ st1,
      refresh_token cfg st now1 rec.token =
        (st1, .ok (create_token_response (create_tokens st.fresh) u)) ∧
      st1.refresh_tokens =
        st.refresh_tokens.map (mark_refresh_used_if_token rec.token) ++
          [⟨st.fresh + 1, u.id, some (now1 + cfg.REFRESH_TOKEN_EXPIRE_MINUTES), false⟩] ∧
      (∀ x ∈ st1.refresh_tokens, x.token = rec.token → x.used = true) ∧
      refresh_token cfg st1 now2 rec.token =
        (st1, .error ⟨401, "Refresh token is invalid or has expired"⟩) := by
  have hfind : get_active_token st rec.token now1 = some rec := by
    unfold get_active_token
    refine find_unique_key _ (fun t => t.token) _ hdistinct rec hmem ?_ ?_
    · simp [hused, refresh_not_expired, hexp, hnow]
    · intro x hx
      simp only [Bool.and_eq_true, beq_iff_eq] at hx
      exact hx.1.1
  have huser2 : get_user_by_id
      { users := st.users,
        refresh_tokens := List.map (mark_refresh_used_if_token rec.token) st.refresh_tokens,
        verification_codes := st.verification_codes, reset_tokens := st.reset_tokens,
        fresh := st.fresh } (rec.user_id : Int) = some u := huser
  refine ⟨{ st with
      refresh_tokens :=
        st.refresh_tokens.map (mark_refresh_used_if_token rec.token) ++
          [⟨st.fresh + 1, u.id, some (now1 + cfg.REFRESH_TOKEN_EXPIRE_MINUTES), false⟩],
      fresh := st.fresh + 2 }, ?_, rfl, ?_, ?_⟩
  · simp [refresh_token, hfind, huser2, invalidate_refresh_token,
      save_refresh_token, create_tokens]
  · intro x hx hxtok
    rcases List.mem_append.mp hx with hx1 | hx1
    · rcases List.mem_map.mp hx1 with ⟨y, hy, rfl⟩
      cases h1 : y.token == rec.token with
      | true => simp [mark_refresh_used_if_token, h1]
      | false =>
        exfalso
        have hne : y.token ≠ rec.token := by simpa using h1
        have : (mark_refresh_used_if_token rec.token y).token = y.token := by
          simp [mark_refresh_used_if_token, h1]
        rw [this] at hxtok
        exact hne hxtok
    · rcases List.mem_singleton.mp hx1 with rfl
      exfalso
      have hlt := hwf rec hmem
      simp only at hxtok
      omega
  · have hnone : get_active_token
        { st with
          refresh_tokens :=
            st.refresh_tokens.map (mark_refresh_used_if_token rec.token) ++
              [⟨st.fresh + 1, u.id, some (now1 + cfg.REFRESH_TOKEN_EXPIRE_MINUTES), false⟩],
          fresh := st.fresh + 2 } rec.token now2 = none := by
      unfold get_active_token
      apply find_none_of_all_false
      intro x hx
      rcases List.mem_append.mp hx with hx1 | hx1
      · rcases List.mem_map.mp hx1 with ⟨y, hy, rfl⟩
        cases h1 : y.token == rec.token with
        | true => simp [mark_refresh_used_if_token, h1]
        | false => simp [mark_refresh_used_if_token, h1]
      · rcases List.mem_singleton.mp hx1 with rfl
        have hlt := hwf rec hmem
        have hne : (st.fresh + 1 == rec.token) = false := by
          simp only [beq_eq_false_iff_ne]
          omega
        simp [hne]
    simp [refresh_token, hnone]

theorem refresh_rotation_single_use_witness :
    recW ∈ stW.refresh_tokens ∧
      (∃ st1,
        refresh_token cfgW stW 50 recW.token =
          (st1, .ok (create_token_response (create_tokens stW.fresh) uW)) ∧
        st1.refresh_tokens =
          stW.refresh_tokens.map (mark_refresh_used_if_token recW.token) ++
            [⟨stW.fresh + 1, uW.id, some (50 + cfgW.REFRESH_TOKEN_EXPIRE_MINUTES), false⟩] ∧
        (∀ x ∈ st1.refresh_tokens, x.token = recW.token → x.used = true) ∧
        refresh_token cfgW st1 51 recW.token =
          (st1, .error ⟨401, "Refresh token is invalid or has expired"⟩)) :=
  ⟨by decide,
    refresh_rotation_single_use cfgW stW 50 51 recW uW 100 (by decide) rfl rfl
      (by decide) (List.pairwise_singleton _ _) (by decide) rfl⟩

/-! ### C5: reset token is single-use -/

/-- C5: after a successful verify-reset-code (which returns the plaintext
token and stores only its digest), change-password with that token succeeds
exactly once — hashing the new password, overwriting the user's digest and
marking the reset token used = true — and repeating change-password with the
same token afterwards fails with the InvalidOrExpired error. -/
theorem reset_token_single_use (cfg : Settings) (st : AuthState)
    (now1 now2 now3 salt rt : Nat) (email code newpwd : String)
    (u : User) (vc : VerificationCodeRec)
    (hu : get_user_by_email st email = some u)
    (hvc : get_verification_code_by_email st email now1 = some vc)
    (hcode : verify_password code (some vc.code_hash) = true)
    (hfreshrt : ∀ x ∈ st.reset_tokens, x.token ≠ hash_token rt)
    (huid : get_user_by_id st (u.id : Int) = some u)
    (hnow2 : now2 < now1 + cfg.RESET_TOKEN_EXPIRE_MINUTES) :
    ∃ st1 st2,
      verify_reset_code cfg st now1 rt email code = (st1, .ok rt) ∧
      reset_password st1 now2 salt rt newpwd = (st2, .ok "Password changed") ∧
      (∃ u1 ∈ st2.users, u1.id = u.id ∧
        u1.password_hash = some (hash_password salt newpwd)) ∧
      (∀ x ∈ st2.reset_tokens, x.token = hash_token rt → x.used = true) ∧
      reset_password st2 now3 salt rt newpwd =
        (st2, .error ⟨400, "Reset token is invalid or expired."⟩) := by
  have hu2 : st.users.find? (fun x => x.email == email) = some u := hu
  have humem : u ∈ st.users := List.mem_of_find?_eq_some hu2
  have hleft : ∀ x ∈ st.reset_tokens,
      (x.token == hash_token rt && decide (now2 < x.expires_at) && !x.used) = false := by
    intro x hx
    have hne := hfreshrt x hx
    have h1 : (x.token == hash_token rt) = false := by
      simp only [beq_eq_false_iff_ne]
      exact hne
    simp [h1]
  have hfind2 : get_reset_token
      { st with
        reset_tokens :=
          st.reset_tokens ++ [⟨u.id, hash_token rt, now1 + cfg.RESET_TOKEN_EXPIRE_MINUTES, false⟩],
        verification_codes := st.verification_codes.map (mark_code_used_if_email email) }
      (hash_token rt) now2 =
      some ⟨u.id, hash_token rt, now1 + cfg.RESET_TOKEN_EXPIRE_MINUTES, false⟩ := by
    unfold get_reset_token
    rw [find_append_of_left_false _ _ _ hleft]
    simp [hnow2]
  have huid2 : get_user_by_id
      { st with
        reset_tokens :=
          st.reset_tokens ++ [⟨u.id, hash_token rt, now1 + cfg.RESET_TOKEN_EXPIRE_MINUTES, false⟩],
        verification_codes := st.verification_codes.map (mark_code_used_if_email email) }
      ((u.id : Nat) : Int) = some u := huid
  refine ⟨{ st with
      reset_tokens :=
        st.reset_tokens ++ [⟨u.id, hash_token rt, now1 + cfg.RESET_TOKEN_EXPIRE_MINUTES, false⟩],
      verification_codes := st.verification_codes.map (mark_code_used_if_email email) },
    { st with
      users := st.users.map (fun x =>
        if x.id == u.id then { u with password_hash := some (hash_password salt newpwd) } else x),
      reset_tokens :=
        (st.reset_tokens ++
          [(⟨u.id, hash_token rt, now1 + cfg.RESET_TOKEN_EXPIRE_MINUTES, false⟩ : ResetTokenRec)]).map
          (mark_reset_used_if_token (hash_token rt)),
      verification_codes := st.verification_codes.map (mark_code_used_if_email email) },
    ?_, ?_, ?_, ?_, ?_⟩
  · simp [verify_reset_code, hu, hvc, hcode, save_reset_token,
      invalidate_all_verifications_codes_by_email]
  · simp only [reset_password]
    rw [hfind2]
    simp only [huid2, update_user, invalidate_reset_token, mark_reset_used_if_token]
  · refine ⟨{ u with password_hash := some (hash_password salt newpwd) }, ?_, rfl, rfl⟩
    refine List.mem_map.mpr ⟨u, humem, ?_⟩
    simp
  · intro x hx hxtok
    rcases List.mem_map.mp hx with ⟨y, hy, rfl⟩
    cases h1 : y.token == hash_token rt with
    | true => simp [mark_reset_used_if_token, h1]
    | false =>
      exfalso
      have hne : y.token ≠ hash_token rt := by simpa using h1
      have heq : (mark_reset_used_if_token (hash_token rt) y).token = y.token := by
        simp [mark_reset_used_if_token, h1]
      rw [heq] at hxtok
      exact hne hxtok
  · have hnone : get_reset_token
        { st with
          users := st.users.map (fun x =>
            if x.id == u.id then { u with password_hash := some (hash_password salt newpwd) } else x),
          reset_tokens :=
            (st.reset_tokens ++
              [(⟨u.id, hash_token rt, now1 + cfg.RESET_TOKEN_EXPIRE_MINUTES, false⟩ : ResetTokenRec)]).map
              (mark_reset_used_if_token (hash_token rt)),
          verification_codes := st.verification_codes.map (mark_code_used_if_email email) }
        (hash_token rt) now3 = none := by
      unfold get_reset_token
      apply find_none_of_all_false
      intro x hx
      rcases List.mem_map.mp hx with ⟨y, hy, rfl⟩
      cases h1 : y.token == hash_token rt with
      | true => simp [mark_reset_used_if_token, h1]
      | false => simp [mark_reset_used_if_token, h1]
    simp only [reset_password]
    rw [hnone]

theorem reset_token_single_use_witness :
    get_user_by_email stVW "a@x.com" = some uW ∧ 60 < 50 + cfgW.RESET_TOKEN_EXPIRE_MINUTES ∧
      (∃ st1 st2,
        verify_reset_code cfgW stVW 50 9 "a@x.com" "123456" = (st1, .ok 9) ∧
        reset_password st1 60 2 9 "npw" = (st2, .ok "Password changed") ∧
        (∃ u1 ∈ st2.users, u1.id = uW.id ∧
          u1.password_hash = some (hash_password 2 "npw")) ∧
        (∀ x ∈ st2.reset_tokens, x.token = hash_token 9 → x.used = true) ∧
        reset_password st2 70 2 9 "npw" =
          (st2, .error ⟨400, "Reset token is invalid or expired."⟩)) :=
  ⟨rfl, by decide,
    reset_token_single_use cfgW stVW 50 60 70 2 9 "a@x.com" "123456" "npw" uW
      ⟨"a@x.com", ⟨1, "123456"⟩, 100, false⟩ rfl rfl rfl
      (by intro x hx; simp [stVW] at hx) rfl (by decide)⟩

/-! ### C10: signup's refresh token has no expiry and is never refreshable -/

/-- C10: the refresh token persisted at signup completion is stored with
`expires_at` unset; because the active-token lookup demands an expiry
strictly in the future, that token is never returned by the lookup, so the
very first refresh call presenting it fails with the InvalidOrExpired
error, at any time. -/
theorem signup_refresh_token_never_active (cfg : Settings) (st : AuthState)
    (now salt : Nat) (email code password : String) (vc : VerificationCodeRec) (u : User)
    (hvc : get_verification_code_by_email st email now = some vc)
    (hcode : verify_password code (some vc.code_hash) = true)
    (hu : get_user_by_email st email = some u)
    (hwf : ∀ x ∈ st.refresh_tokens, x.token < st.fresh) :
    ∃ st1 resp,
      signup cfg st now salt email code password = (st1, .ok resp) ∧
      st1.refresh_tokens = st.refresh_tokens ++ [⟨st.fresh + 1, u.id, none, false⟩] ∧
      (⟨st.fresh + 1, u.id, none, false⟩ : RefreshTokenRec).expires_at = none ∧
      (∀ now2, get_active_token st1 (st.fresh + 1) now2 = none) ∧
      (∀ now2, refresh_token cfg st1 now2 (st.fresh + 1) =
        (st1, .error ⟨401, "Refresh token is invalid or has expired"⟩)) := by
  refine ⟨{ st with
      users := st.users.map (fun x =>
        if x.id == u.id then { u with password_hash := some (hash_password salt password) } else x),
      refresh_tokens := st.refresh_tokens ++ [⟨st.fresh + 1, u.id, none, false⟩],
      verification_codes := st.verification_codes.map (mark_code_used_if_email email),
      fresh := st.fresh + 2 },
    create_token_response (create_tokens st.fresh)
      { u with password_hash := some (hash_password salt password) }, ?_, rfl, rfl, ?_, ?_⟩
  · simp [signup, hvc, hcode, hu, update_user, save_refresh_token, create_tokens,
      invalidate_all_verifications_codes_by_email]
  · intro now2
    unfold get_active_token
    apply find_none_of_all_false
    intro x hx
    rcases List.mem_append.mp hx with hx1 | hx1
    · have hlt := hwf x hx1
      have hne : (x.token == st.fresh + 1) = false := by
        simp only [beq_eq_false_iff_ne]
        omega
      simp [hne]
    · rcases List.mem_singleton.mp hx1 with rfl
      simp [refresh_not_expired]
  · intro now2
    have hnone : get_active_token
        { st with
          users := st.users.map (fun x =>
            if x.id == u.id then { u with password_hash := some (hash_password salt password) } else x),
          refresh_tokens := st.refresh_tokens ++ [⟨st.fresh + 1, u.id, none, false⟩],
          verification_codes := st.verification_codes.map (mark_code_used_if_email email),
          fresh := st.fresh + 2 } (st.fresh + 1) now2 = none := by
      unfold get_active_token
      apply find_none_of_all_false
      intro x hx
      rcases List.mem_append.mp hx with hx1 | hx1
      · have hlt := hwf x hx1
        have hne : (x.token == st.fresh + 1) = false := by
          simp only [beq_eq_false_iff_ne]
          omega
        simp [hne]
      · rcases List.mem_singleton.mp hx1 with rfl
        simp [refresh_not_expired]
    simp only [refresh_token]
    rw [hnone]

theorem signup_refresh_token_never_active_witness :
    get_user_by_email stVW "a@x.com" = some uW ∧
      (∃ st1 resp,
        signup cfgW stVW 50 8 "a@x.com" "123456" "newpw" = (st1, .ok resp) ∧
        st1.refresh_tokens = stVW.refresh_tokens ++ [⟨stVW.fresh + 1, uW.id, none, false⟩] ∧
        (⟨stVW.fresh + 1, uW.id, none, false⟩ : RefreshTokenRec).expires_at = none ∧
        (∀ now2, get_active_token st1 (stVW.fresh + 1) now2 = none) ∧
        (∀ now2, refresh_token cfgW st1 now2 (stVW.fresh + 1) =
          (st1, .error ⟨401, "Refresh token is invalid or has expired"⟩))) :=
  ⟨rfl,
    signup_refresh_token_never_active cfgW stVW 50 8 "a@x.com" "123456" "newpw"
      ⟨"a@x.com", ⟨1, "123456"⟩, 100, false⟩ uW rfl rfl rfl
      (by intro x hx; simp [stVW] at hx)⟩

end DocsExp
